import Mathlib

/-!
Shallow embedding of the CatMario_server cloud-variable bridge
(src/server.js, the CloudManager revision).

The CloudManager owns two backend records (scratch / turbowarp), a
coalescing broadcast queue, and the retry machinery.  Stateful methods of
the class are embedded as pure state transformers
`CMState → CMState × List Msg`, where the `Msg` list is the sequence of
broadcasts the method emits.  Timestamps (`Date.now()`,
`new Date().toISOString()`) are passed in as explicit `now : Nat`
parameters; timer slots (`reconnectTimer`, `batchTimeout`) hold the armed
delay rather than an OS handle.  The JS numbers are modelled as `Rat`
(the backoff multiplication by 1.5 leaves the integers).  External I/O
results (does the close call throw, does a backend send succeed) are
explicit parameters, since they are outside the program.
-/

namespace CatMario

/-- The two backend identifiers of `this.cloudData`. -/
inductive Mode where
  | scratch
  | turbowarp
  deriving DecidableEq

def modeName : Mode → String
  | Mode.scratch => "scratch"
  | Mode.turbowarp => "turbowarp"

/-- Per-backend record, the shape of `this.cloudData[mode]` (server.js
lines 14-35).  `connection` is `some ()` exactly when the JS field is
non-null; `reconnectTimer` holds the delay of the armed timer. -/
structure BackendData where
  connection : Option Unit
  vars : List (String × String)
  reconnectDelay : Rat
  isAvailable : Bool
  lastAttempt : Nat
  failedAttempts : Nat
  reconnectTimer : Option Rat
  isConnecting : Bool
  deriving DecidableEq

/-- Broadcast / reply messages.  The JS code sends JSON strings; we keep
the structured payload (JSON.stringify is deterministic library code). -/
inductive Msg where
  | batchUpdate (mode : Mode) (updates : List (String × String))
  | connectionStatus (mode : Mode) (status : String) (reason : String) (timestamp : Nat)
  | pong (timestamp : Nat)
  | errorReply (message : String)
  | successReply
  | allVars (mode : Mode) (vars : List (String × String)) (timestamp : Nat)
  | serviceStatus (scratchAvail turbowarpAvail : Bool) (timestamp : Nat)
  | serverShutdown (timestamp : Nat)
  deriving DecidableEq

/-- Manager state: the two backend records, the coalescing queue
`this.messageQueue` (a Map, insertion ordered; we keep mode, pending
updates), the `this.batchTimeout` slot, and `startTime`, the time the
class definition (the `static responses` initializer) was evaluated. -/
structure CMState where
  scratch : BackendData
  turbowarp : BackendData
  messageQueue : List (Mode × List (String × String))
  batchTimeout : Bool
  startTime : Nat
  deriving DecidableEq

def CMState.get (s : CMState) : Mode → BackendData
  | Mode.scratch => s.scratch
  | Mode.turbowarp => s.turbowarp

def CMState.set (s : CMState) : Mode → BackendData → CMState
  | Mode.scratch, d => { s with scratch := d }
  | Mode.turbowarp, d => { s with turbowarp := d }

/-- Constants of the constructor (server.js lines 40-43). -/
def LONG_RECONNECT_INTERVAL : Nat := 900000

def MAX_FAILED_ATTEMPTS : Nat := 3

def BATCH_DELAY : Nat := 50

def CONNECTION_TIMEOUT : Nat := 30000

/-- Initial per-backend record of the constructor. -/
def initBackend (reconnectDelay : Rat) : BackendData :=
  { connection := none, vars := [], reconnectDelay := reconnectDelay,
    isAvailable := false, lastAttempt := 0, failedAttempts := 0,
    reconnectTimer := none, isConnecting := false }

def initialReconnectDelay : Mode → Rat
  | Mode.scratch => 5000
  | Mode.turbowarp => 2000

def initState (startTime : Nat) : CMState :=
  { scratch := initBackend 5000, turbowarp := initBackend 2000,
    messageQueue := [], batchTimeout := false, startTime := startTime }

/-- JS object property assignment `obj[name] = value` on an
insertion-ordered string map: overwrite in place, else append. -/
def setVar (vars : List (String × String)) (name value : String) :
    List (String × String) :=
  if vars.any (fun p => p.1 == name) then
    vars.map (fun p => if p.1 == name then (p.1, value) else p)
  else vars ++ [(name, value)]

def lookupVar (vars : List (String × String)) (name : String) : Option String :=
  (vars.find? (fun p => p.1 == name)).map (fun p => p.2)

/-- `messageQueue.get(key).updates[name] = value` together with the
`messageQueue.set(key, ...)` that creates a missing entry. -/
def queueUpsert (q : List (Mode × List (String × String))) (m : Mode)
    (name value : String) : List (Mode × List (String × String)) :=
  if q.any (fun p => p.1 == m) then
    q.map (fun p => if p.1 == m then (p.1, setVar p.2 name value) else p)
  else q ++ [(m, setVar [] name value)]

/-- `scheduleBroadcast(mode, name, value)` (server.js lines 46-62):
skip when the backend is unavailable; otherwise merge the update into
that backend's pending batch and re-arm the single flush timer. -/
def scheduleBroadcast (m : Mode) (name value : String) (s : CMState) : CMState :=
  if !(s.get m).isAvailable then s
  else
    { s with messageQueue := queueUpsert s.messageQueue m name value,
             batchTimeout := true }

/-- `flushBroadcasts()` (server.js lines 64-72): broadcast one
batch_update per queued backend that is still available, then clear the
queue and the timer slot. -/
def flushBroadcasts (s : CMState) : CMState × List Msg :=
  ({ s with messageQueue := [], batchTimeout := false },
   s.messageQueue.filterMap (fun p =>
     if (s.get p.1).isAvailable then some (Msg.batchUpdate p.1 p.2) else none))

/-- Substring test on character lists (JS `String.prototype.includes`). -/
def charsStartWith : List Char → List Char → Bool
  | [], _ => true
  | _ :: _, [] => false
  | a :: as, b :: bs => a == b && charsStartWith as bs

def charsContain (sub : List Char) : List Char → Bool
  | [] => sub.isEmpty
  | c :: rest => charsStartWith sub (c :: rest) || charsContain sub rest

def strIncludes (s sub : String) : Bool := charsContain sub.data s.data

/-- `isNetworkError(error)` (server.js lines 98-107), on the error's
message string. -/
def isNetworkError (message : String) : Bool :=
  strIncludes message "502" ||
  strIncludes message "Unexpected server response" ||
  strIncludes message "ECONNRESET" ||
  strIncludes message "ENOTFOUND" ||
  strIncludes message "ETIMEDOUT" ||
  strIncludes message "callback is not a function" ||
  strIncludes message "ECONNREFUSED"

/-- `forceDisconnectService(mode, reason)` (server.js lines 110-145):
reset `isConnecting`, best-effort close the handle (`closeThrows` says
whether that close call throws; the catch only logs, so the result never
depends on it), null the handle, clear availability, and broadcast one
connection_status=disconnected message. -/
def forceDisconnectService (m : Mode) (reason : String) (_closeThrows : Bool)
    (now : Nat) (s : CMState) : CMState × List Msg :=
  let d := s.get m
  let d1 := { d with isConnecting := false, connection := none, isAvailable := false }
  (s.set m d1, [Msg.connectionStatus m "disconnected" reason now])

/-- Delay chosen by `scheduleReconnect` (server.js lines 488-495). -/
def chooseReconnectDelay (failedAttempts : Nat) (reconnectDelay : Rat) : Rat :=
  if MAX_FAILED_ATTEMPTS ≤ failedAttempts then (LONG_RECONNECT_INTERVAL : Rat)
  else min reconnectDelay 30000

/-- `scheduleReconnect(mode)` (server.js lines 481-516): cancel any
pending timer and arm one at the chosen delay.  The body the timer runs
is modelled separately (`reconnectTimerFiredFailure`). -/
def scheduleReconnect (m : Mode) (s : CMState) : CMState :=
  let d := s.get m
  let delay := chooseReconnectDelay d.failedAttempts d.reconnectDelay
  s.set m { d with reconnectTimer := some delay }

/-- The backoff ramp applied inside the reconnect timer callback
(server.js line 509): `reconnectDelay = min(reconnectDelay * 1.5, 30000)`. -/
def rampBackoff (reconnectDelay : Rat) : Rat :=
  min (reconnectDelay * (3 / 2)) 30000

/-- Reconnect timer fired and the connect attempt reported failure
(server.js lines 497-510): clear the slot and, while still under the
failure threshold, ramp the short backoff delay. -/
def reconnectTimerFiredFailure (m : Mode) (s : CMState) : CMState :=
  let d := s.get m
  if d.failedAttempts < MAX_FAILED_ATTEMPTS then
    s.set m { d with reconnectTimer := none,
                     reconnectDelay := rampBackoff d.reconnectDelay }
  else s.set m { d with reconnectTimer := none }

/-- `scheduleLongTermReconnect(mode)` (server.js lines 429-462): cancel
any pending timer and arm one at the long interval. -/
def scheduleLongTermReconnect (m : Mode) (s : CMState) : CMState :=
  let d := s.get m
  s.set m { d with reconnectTimer := some (LONG_RECONNECT_INTERVAL : Rat) }

/-- `handleError(mode, error)` (server.js lines 401-426): clear
`isConnecting` first; a network-classified error forces a disconnect,
pins `failedAttempts` to the maximum, records `lastAttempt` and arms the
long-interval timer; any other error increments `failedAttempts`, drops
the connection, broadcasts disconnected and runs `scheduleReconnect`. -/
def handleError (m : Mode) (errMessage : String) (closeThrows : Bool)
    (now : Nat) (s : CMState) : CMState × List Msg :=
  let d := s.get m
  let s0 := s.set m { d with isConnecting := false }
  if isNetworkError errMessage then
    let r := forceDisconnectService m "ネットワークエラーにより切断" closeThrows now s0
    let d1 := r.1.get m
    let s2 := r.1.set m { d1 with failedAttempts := MAX_FAILED_ATTEMPTS, lastAttempt := now }
    (scheduleLongTermReconnect m s2, r.2)
  else
    let d0 := s0.get m
    let d1 := { d0 with failedAttempts := d0.failedAttempts + 1,
                        isAvailable := false, connection := none }
    let s1 := s0.set m d1
    (scheduleReconnect m s1,
     [Msg.connectionStatus m "disconnected"
       ("接続失敗 " ++ toString d1.failedAttempts ++ "回目: " ++ errMessage) now])

/-- `handleDisconnection(mode)` (server.js lines 464-479). -/
def handleDisconnection (m : Mode) (now : Nat) (s : CMState) : CMState × List Msg :=
  let d := s.get m
  let s1 := s.set m { d with connection := none, isAvailable := false, isConnecting := false }
  (scheduleReconnect m s1,
   [Msg.connectionStatus m "disconnected" "接続が切断されました" now])

/-- Success branch of a connect attempt: scratch seeds `vars` from the
cloud snapshot (server.js lines 210-224); turbowarp leaves `vars` alone
(lines 316-329).  Both store the handle, set availability, reset the
failure counter and the backoff delay, clear `isConnecting`, and
broadcast connected. -/
def connectSuccess (m : Mode) (snapshot : List (String × String)) (now : Nat)
    (s : CMState) : CMState × List Msg :=
  let d := s.get m
  let d1 :=
    match m with
    | Mode.scratch =>
        { d with connection := some (), vars := snapshot, isAvailable := true,
                 failedAttempts := 0, reconnectDelay := initialReconnectDelay Mode.scratch,
                 isConnecting := false }
    | Mode.turbowarp =>
        { d with connection := some (), isAvailable := true,
                 failedAttempts := 0, reconnectDelay := initialReconnectDelay Mode.turbowarp,
                 isConnecting := false }
  (s.set m d1, [Msg.connectionStatus m "connected" "接続しました" now])

/-- Failure catch branch of `connectToScratchCloud` (server.js lines
252-258): clear the attempt timeout, reset `isConnecting`, delegate to
`handleError`. -/
def scratchConnectFailure (errMessage : String) (closeThrows : Bool) (now : Nat)
    (s : CMState) : CMState × List Msg :=
  let d := s.get Mode.scratch
  handleError Mode.scratch errMessage closeThrows now
    (s.set Mode.scratch { d with isConnecting := false })

/-- The turbowarp socket error handler (server.js lines 349-354) and the
catch branch of `connectToTurboWarpCloud` (lines 358-364): both reset
`isConnecting` and delegate to `handleError`. -/
def turbowarpConnectFailure (errMessage : String) (closeThrows : Bool) (now : Nat)
    (s : CMState) : CMState × List Msg :=
  let d := s.get Mode.turbowarp
  handleError Mode.turbowarp errMessage closeThrows now
    (s.set Mode.turbowarp { d with isConnecting := false })

/-- `shutdown()` (server.js lines 759-804): clear the reconnect timers
and `isConnecting` flags, clear the batch timer, broadcast the shutdown
notice, then best-effort close both handles (exceptions swallowed).
Note the handles, `isAvailable` and `vars` are left as they are. -/
def shutdown (now : Nat) (s : CMState) : CMState × List Msg :=
  let sc := s.scratch
  let tw := s.turbowarp
  ({ s with
      scratch := { sc with reconnectTimer := none, isConnecting := false },
      turbowarp := { tw with reconnectTimer := none, isConnecting := false },
      batchTimeout := false },
   [Msg.serverShutdown now])

/-- Outcome of the external backend write inside `setCloudVar`
(the awaited `connection.set` for scratch, `socket.send` plus the
readyState check for turbowarp). -/
inductive SetOutcome where
  | ok
  | fail (errMessage : String)
  deriving DecidableEq

/-- `setCloudVar(mode, name, value)` (server.js lines 518-553): the
guard throw when the backend is unavailable happens before the try and
does not run `handleError`; a failure of the external write is caught,
routed through `handleError`, and rethrown.  The returned
`Option String` is the thrown message, `none` on success.  Values are
already strings in this model (`String(value)` is the identity). -/
def setCloudVar (m : Mode) (_name _value : String) (out : SetOutcome)
    (closeThrows : Bool) (now : Nat) (s : CMState) :
    CMState × List Msg × Option String :=
  let d := s.get m
  if !d.isAvailable || d.connection.isNone || d.isConnecting then
    (s, [], some (modeName m ++ " Cloud は利用できません"))
  else
    match out with
    | SetOutcome.ok => (s, [], none)
    | SetOutcome.fail e =>
        let r := handleError m e closeThrows now s
        (r.1, r.2, some e)

/-- A parsed client request, `const { mode, type, name, value } = data`;
`none` models an absent (undefined) field. -/
structure ClientMsg where
  type : Option String
  mode : Option String
  name : Option String
  value : Option String
  deriving DecidableEq

/-- JS truthiness of a possibly-undefined string (`if (name && ...)`). -/
def truthy : Option String → Bool
  | none => false
  | some str => str != ""

/-- The membership test of the mode validation,
`["scratch", "turbowarp"].includes(mode)`, returning which backend the
selector names. -/
def Mode.ofString (str : String) : Option Mode :=
  if str == "scratch" then some Mode.scratch
  else if str == "turbowarp" then some Mode.turbowarp
  else none

/-- Response templates (server.js lines 556-582).  `static responses`
is evaluated once, when the class definition is evaluated; its pong
template therefore embeds that one evaluation's timestamp, which the
model keeps in `CMState.startTime`. -/
def responsesInvalidMode : Msg :=
  Msg.errorReply "modeをscratchまたはturbowarpに指定してください"

def responsesSuccess : Msg := Msg.successReply

def responsesUnknownType : Msg := Msg.errorReply "不明な type です"

def responsesParseError : Msg := Msg.errorReply "JSON パースエラーまたは形式不正"

def responsesPong (startTime : Nat) : Msg := Msg.pong startTime

def responsesServiceUnavailable (m : Mode) (now : Nat) : Msg :=
  Msg.errorReply (modeName m ++ " Cloud は現在利用できません " ++ toString now)

/-- The per-client message handler installed by `handleConnection`
(server.js lines 618-684), on an already-parsed message.  Returns the
new state, the replies sent to the requesting client, and the broadcasts
emitted to all clients.  A ping short-circuits with the precomputed pong
template; then the mode selector is validated against the two known
identifiers; then availability is checked; then the type dispatch runs. -/
def handleClientMessage (msg : ClientMsg) (out : SetOutcome) (closeThrows : Bool)
    (now : Nat) (s : CMState) : CMState × List Msg × List Msg :=
  if msg.type == some "ping" then
    (s, [responsesPong s.startTime], [])
  else
    match msg.mode.bind Mode.ofString with
    | none => (s, [responsesInvalidMode], [])
    | some m =>
      if !(s.get m).isAvailable then
        (s, [responsesServiceUnavailable m now], [])
      else
        match msg.type with
        | some "set" =>
            if truthy msg.name && msg.value.isSome then
              let r := setCloudVar m (msg.name.getD "") (msg.value.getD "")
                out closeThrows now s
              match r.2.2 with
              | none => (r.1, [responsesSuccess], r.2.1)
              | some e =>
                  (r.1, [Msg.errorReply ("変数設定失敗: " ++ e)], r.2.1)
            else (s, [Msg.errorReply "name と value は必須です"], [])
        | some "get" => (s, [Msg.allVars m (s.get m).vars now], [])
        | _ => (s, [responsesUnknownType], [])

/-- A JSON frame of the turbowarp line protocol, as far as the handler
reads it: `msgData.method`, `msgData.name`, `msgData.value`. -/
structure Frame where
  method : String
  name : String
  value : String
  deriving DecidableEq

/-- The per-line loop of `handleTurboWarpMessage` (server.js lines
374-385), threading the turbowarp vars, the updates object, and the
hasUpdates flag; a line whose parse fails (`parse = none`) is skipped. -/
def twFold (parse : String → Option Frame) :
    List String → List (String × String) × List (String × String) × Bool →
    List (String × String) × List (String × String) × Bool
  | [], acc => acc
  | line :: rest, (vars, updates, hasUpdates) =>
    match parse line with
    | some fr =>
        if fr.method == "set" then
          twFold parse rest
            (setVar vars fr.name fr.value, setVar updates fr.name fr.value, true)
        else twFold parse rest (vars, updates, hasUpdates)
    | none => twFold parse rest (vars, updates, hasUpdates)

/-- JS whitespace test used by `String.prototype.trim`, restricted to
the characters that occur in the line protocol. -/
def isJsSpace (c : Char) : Bool :=
  c == ' ' || c == '\n' || c == '\t' || c == '\r'

/-- `msgString.trim()` on the character list. -/
def trimChars (cs : List Char) : List Char :=
  ((cs.dropWhile isJsSpace).reverse.dropWhile isJsSpace).reverse

/-- `str.split(sep)` of JS for a one-character separator: every
occurrence of the separator ends a group; groups may be empty. -/
def splitOnChar (sep : Char) : List Char → List (List Char)
  | [] => [[]]
  | c :: rest =>
    let r := splitOnChar sep rest
    if c == sep then [] :: r
    else
      match r with
      | [] => [[c]]
      | g :: gs => (c :: g) :: gs

/-- `msgString.trim().split('\n').filter(Boolean)` (server.js line 370). -/
def splitLines (raw : String) : List String :=
  ((splitOnChar (Char.ofNat 10) (trimChars raw.data)).map
    (fun g => String.mk g)).filter (fun l => l != "")

/-- `handleTurboWarpMessage(msg)` (server.js lines 367-398): trim the
read, split on newlines, drop empty lines, parse each line independently
(`parse` stands for `JSON.parse`, `none` modelling a parse exception),
apply each well-formed set frame to the turbowarp store, and, when any
update happened, broadcast a single batch_update carrying all of them. -/
def handleTurboWarpMessage (parse : String → Option Frame) (raw : String)
    (s : CMState) : CMState × List Msg :=
  let messages := splitLines raw
  let r := twFold parse messages ((s.get Mode.turbowarp).vars, [], false)
  let d := s.get Mode.turbowarp
  let s1 := s.set Mode.turbowarp { d with vars := r.1 }
  (s1, if r.2.2 then [Msg.batchUpdate Mode.turbowarp r.2.1] else [])

/-- Backend lifecycle events for the reachability claims: a successful
connect (with the snapshot scratch seeds from), a transport close, a
raised error, and process shutdown. -/
inductive BEvent where
  | connectOk (snapshot : List (String × String))
  | closeEvt
  | errorEvt (message : String)
  | shutdownEvt
  deriving DecidableEq

def stepEvent (s : CMState) : Mode × BEvent × Nat → CMState
  | (m, BEvent.connectOk snap, now) => (connectSuccess m snap now s).1
  | (m, BEvent.closeEvt, now) => (handleDisconnection m now s).1
  | (m, BEvent.errorEvt e, now) => (handleError m e false now s).1
  | (_, BEvent.shutdownEvt, now) => (shutdown now s).1

def runEvents (s : CMState) (evs : List (Mode × BEvent × Nat)) : CMState :=
  evs.foldl stepEvent s

/-- True on a connection_status broadcast with status disconnected. -/
def isDisconnectedStatus : Msg → Bool
  | Msg.connectionStatus _ status _ _ => status == "disconnected"
  | _ => false

/-- True on a batch_update broadcast for the given backend. -/
def isBatchFor (m : Mode) : Msg → Bool
  | Msg.batchUpdate m2 _ => m2 == m
  | _ => false

/-! Helper lemmas about the state accessors. -/

lemma get_set_same (s : CMState) (m : Mode) (d : BackendData) :
    (s.set m d).get m = d := by
  cases m <;> rfl

lemma get_set_ne (s : CMState) (m m2 : Mode) (d : BackendData) (h : m ≠ m2) :
    (s.set m d).get m2 = s.get m2 := by
  cases m <;> cases m2 <;> simp_all [CMState.set, CMState.get]

lemma get_queueState (s : CMState) (q : List (Mode × List (String × String)))
    (b : Bool) (m : Mode) :
    CMState.get { s with messageQueue := q, batchTimeout := b } m = s.get m := by
  cases m <;> rfl

lemma queueUpsert_steps (m : Mode) :
    queueUpsert (queueUpsert (queueUpsert [] m "x" "1") m "x" "2") m "y" "3" =
      [(m, [("x", "2"), ("y", "3")])] := by
  cases m <;> decide

/-- C1: for every backend, scheduling the updates (x,1), (x,2), (y,3)
through scheduleBroadcast within one coalescing window and then flushing
yields exactly one batch_update message for that backend, whose updates
map is x ↦ 2, y ↦ 3: last write wins per name and no duplicate batch is
emitted for the window. -/
theorem scheduleBroadcast_coalesces (m : Mode) (s : CMState)
    (hq : s.messageQueue = []) (hav : (s.get m).isAvailable = true) :
    flushBroadcasts
      (scheduleBroadcast m "y" "3"
        (scheduleBroadcast m "x" "2" (scheduleBroadcast m "x" "1" s))) =
    ({ s with messageQueue := [], batchTimeout := false },
     [Msg.batchUpdate m [("x", "2"), ("y", "3")]]) := by
  obtain ⟨sc, tw, mq, bt, st⟩ := s
  simp only [CMState.messageQueue] at hq
  subst hq
  have havail : ∀ (q : List (Mode × List (String × String))) (b : Bool),
      (CMState.get ⟨sc, tw, q, b, st⟩ m).isAvailable = true := by
    intro q b
    cases m <;> exact hav
  have step : ∀ (q : List (Mode × List (String × String))) (b : Bool) (n v : String),
      scheduleBroadcast m n v ⟨sc, tw, q, b, st⟩ =
        ⟨sc, tw, queueUpsert q m n v, true, st⟩ := by
    intro q b n v
    unfold scheduleBroadcast
    rw [havail q b]
    rfl
  rw [step, step, step, queueUpsert_steps]
  unfold flushBroadcasts
  simp [havail]

/-- C1 witness: the coalescing run at a concrete state with the scratch
backend available. -/
theorem scheduleBroadcast_coalesces_witness :
    flushBroadcasts
      (scheduleBroadcast Mode.scratch "y" "3"
        (scheduleBroadcast Mode.scratch "x" "2"
          (scheduleBroadcast Mode.scratch "x" "1"
            { initState 0 with scratch := { initBackend 5000 with isAvailable := true } }))) =
    ({ ({ initState 0 with scratch := { initBackend 5000 with isAvailable := true } } : CMState)
        with messageQueue := [], batchTimeout := false },
     [Msg.batchUpdate Mode.scratch [("x", "2"), ("y", "3")]]) :=
  scheduleBroadcast_coalesces Mode.scratch _ rfl rfl

/-- C2: an error whose description matches a transient-network
signature makes handleError force a disconnect that broadcasts exactly
one connection_status=disconnected message, clear the handle and
availability, pin failedAttempts to MAX_FAILED_ATTEMPTS, record
lastAttempt, and arm the reconnect timer at exactly
LONG_RECONNECT_INTERVAL (900000 ms), leaving the short-backoff delay
untouched. -/
theorem handleError_networkError (m : Mode) (err : String) (ct : Bool)
    (now : Nat) (s : CMState) (h : isNetworkError err = true) :
    (handleError m err ct now s).2 =
      [Msg.connectionStatus m "disconnected" "ネットワークエラーにより切断" now] ∧
    ((handleError m err ct now s).1.get m).isAvailable = false ∧
    ((handleError m err ct now s).1.get m).connection = none ∧
    ((handleError m err ct now s).1.get m).failedAttempts = MAX_FAILED_ATTEMPTS ∧
    ((handleError m err ct now s).1.get m).lastAttempt = now ∧
    ((handleError m err ct now s).1.get m).reconnectTimer =
      some (LONG_RECONNECT_INTERVAL : Rat) ∧
    ((handleError m err ct now s).1.get m).reconnectDelay = (s.get m).reconnectDelay := by
  simp [handleError, h, forceDisconnectService, scheduleLongTermReconnect, get_set_same]

/-- C2 witness: a concrete ECONNRESET error on the scratch backend. -/
theorem handleError_networkError_witness :
    isNetworkError "ECONNRESET" = true ∧
    ((handleError Mode.scratch "ECONNRESET" false 5 (initState 0)).1.get
        Mode.scratch).reconnectTimer = some (LONG_RECONNECT_INTERVAL : Rat) ∧
    ((handleError Mode.scratch "ECONNRESET" false 5 (initState 0)).1.get
        Mode.scratch).failedAttempts = MAX_FAILED_ATTEMPTS :=
  ⟨by decide,
   (handleError_networkError Mode.scratch "ECONNRESET" false 5 (initState 0)
      (by decide)).2.2.2.2.2.1,
   (handleError_networkError Mode.scratch "ECONNRESET" false 5 (initState 0)
      (by decide)).2.2.2.1⟩

/-- C3: over consecutive non-transient failures the short-retry delay
chosen by scheduleReconnect never decreases under the 1.5x ramp and
never exceeds the 30000 ms cap; once failedAttempts reaches
MAX_FAILED_ATTEMPTS the chosen delay is exactly 900000 ms; and
scheduleReconnect arms its timer at exactly the chosen delay. -/
theorem reconnectDelay_monotone (fa : Nat) (rd : Rat) (h : 0 ≤ rd) :
    (fa < MAX_FAILED_ATTEMPTS →
      chooseReconnectDelay fa rd ≤ chooseReconnectDelay fa (rampBackoff rd) ∧
      chooseReconnectDelay fa rd ≤ 30000) ∧
    (MAX_FAILED_ATTEMPTS ≤ fa → chooseReconnectDelay fa rd = 900000) ∧
    ∀ (m : Mode) (s : CMState),
      ((scheduleReconnect m s).get m).reconnectTimer =
        some (chooseReconnectDelay (s.get m).failedAttempts (s.get m).reconnectDelay) := by
  refine ⟨fun hlt => ?_, fun hge => ?_, fun m s => ?_⟩
  · have hnot : ¬ MAX_FAILED_ATTEMPTS ≤ fa := Nat.not_le.mpr hlt
    constructor
    · simp only [chooseReconnectDelay, rampBackoff, if_neg hnot]
      rw [min_eq_left (min_le_right (rd * (3 / 2)) (30000 : Rat))]
      exact min_le_min (le_mul_of_one_le_right h (by norm_num)) le_rfl
    · simp only [chooseReconnectDelay, if_neg hnot]
      exact min_le_right _ _
  · simp only [chooseReconnectDelay, if_pos hge, LONG_RECONNECT_INTERVAL]
    norm_num
  · cases m <;> simp [scheduleReconnect, CMState.get, CMState.set]

/-- C3 witness: the initial scratch delay with the failure counter at
the threshold. -/
theorem reconnectDelay_monotone_witness :
    (0 : Rat) ≤ 5000 ∧ chooseReconnectDelay 3 5000 = 900000 :=
  ⟨by norm_num,
   (reconnectDelay_monotone 3 5000 (by norm_num)).2.1 (by decide)⟩

/-- C9: every classified error path leaves isConnecting false:
handleError itself, the connect-failure catch branch of
connectToScratchCloud, and the error path of connectToTurboWarpCloud
all clear the Connecting guard. -/
theorem errorPaths_clear_isConnecting (m : Mode) (err : String) (ct : Bool)
    (now : Nat) (s : CMState) :
    ((handleError m err ct now s).1.get m).isConnecting = false ∧
    ((scratchConnectFailure err ct now s).1.get Mode.scratch).isConnecting = false ∧
    ((turbowarpConnectFailure err ct now s).1.get Mode.turbowarp).isConnecting = false := by
  have key : ∀ (m2 : Mode) (s2 : CMState),
      ((handleError m2 err ct now s2).1.get m2).isConnecting = false := by
    intro m2 s2
    cases hne : isNetworkError err <;>
      simp [handleError, hne, forceDisconnectService, scheduleLongTermReconnect,
        scheduleReconnect, get_set_same]
  exact ⟨key m s, key Mode.scratch _, key Mode.turbowarp _⟩

/-- C5 counterexample: at a concrete connected state, two consecutive
forceDisconnectService calls emit two connection_status=disconnected
broadcasts, not the single one the claim demands (the broadcast at the
end of forceDisconnectService is unconditional). -/
theorem forceDisconnect_twice_twoBroadcasts :
    (((forceDisconnectService Mode.scratch "r" false 0
          { initState 0 with scratch :=
              { initBackend 5000 with connection := some (), isAvailable := true } }).2 ++
      (forceDisconnectService Mode.scratch "r" false 1
          (forceDisconnectService Mode.scratch "r" false 0
            { initState 0 with scratch :=
                { initBackend 5000 with connection := some (), isAvailable := true } }).1).2).countP
        isDisconnectedStatus = 2) ∧ (2 : Nat) ≠ 1 := by
  constructor
  · rfl
  · decide

/-- C5 amended: each forceDisconnectService call emits exactly one
connection_status=disconnected broadcast (so two calls emit one each,
two in total); the second call is a no-op on the state beyond re-clearing
the already-cleared fields (the state it returns equals the state after
the first call); and the outcome of the close call never affects the
result (exceptions from closing are swallowed, never propagated). -/
theorem forceDisconnect_idempotentState (m : Mode) (reason : String)
    (ct ct2 : Bool) (now now2 : Nat) (s : CMState) :
    (forceDisconnectService m reason ct now s).2 =
      [Msg.connectionStatus m "disconnected" reason now] ∧
    (forceDisconnectService m reason ct2 now2
        (forceDisconnectService m reason ct now s).1).1 =
      (forceDisconnectService m reason ct now s).1 ∧
    forceDisconnectService m reason true now s =
      forceDisconnectService m reason false now s := by
  refine ⟨rfl, ?_, rfl⟩
  cases m <;> simp [forceDisconnectService, CMState.set, CMState.get]

/-- The availability invariant: an available backend holds a live
handle. -/
def availInv (s : CMState) : Prop :=
  ∀ m : Mode, (s.get m).isAvailable = true → (s.get m).connection ≠ none

lemma stepEvent_preserves (s : CMState) (e : Mode × BEvent × Nat)
    (h : availInv s) : availInv (stepEvent s e) := by
  obtain ⟨m, ev, now⟩ := e
  intro m2
  cases ev with
  | connectOk snap =>
      have h2 := h m2
      cases m <;> cases m2 <;>
        simp_all [stepEvent, connectSuccess, CMState.get, CMState.set]
  | closeEvt =>
      have h2 := h m2
      cases m <;> cases m2 <;>
        simp_all [stepEvent, handleDisconnection, scheduleReconnect,
          CMState.get, CMState.set]
  | errorEvt e =>
      have h2 := h m2
      cases hne : isNetworkError e <;> cases m <;> cases m2 <;>
        simp_all [stepEvent, handleError, hne, forceDisconnectService,
          scheduleLongTermReconnect, scheduleReconnect, CMState.get, CMState.set]
  | shutdownEvt =>
      have h2 := h m2
      cases m2 <;> simp_all [stepEvent, shutdown, CMState.get]

lemma runEvents_preserves (evs : List (Mode × BEvent × Nat)) (s : CMState)
    (h : availInv s) : availInv (runEvents s evs) := by
  induction evs generalizing s with
  | nil => exact h
  | cons e rest ih => exact ih (stepEvent s e) (stepEvent_preserves s e h)

lemma availInv_init (startTime : Nat) : availInv (initState startTime) := by
  intro m h2
  cases m <;> simp [initState, initBackend, CMState.get] at h2

/-- C4: in every state reachable from the initial state through any
sequence of connect-success, close, error and shutdown events, an
available backend holds a non-null connection handle. -/
theorem isAvailable_implies_connection (startTime : Nat)
    (evs : List (Mode × BEvent × Nat)) (m : Mode)
    (h : ((runEvents (initState startTime) evs).get m).isAvailable = true) :
    ((runEvents (initState startTime) evs).get m).connection ≠ none :=
  runEvents_preserves evs (initState startTime) (availInv_init startTime) m h

/-- C4 witness: after one successful scratch connect the backend is
available and holds a handle. -/
theorem isAvailable_implies_connection_witness :
    ((runEvents (initState 0) [(Mode.scratch, BEvent.connectOk [("score", "0")], 1)]).get
        Mode.scratch).isAvailable = true ∧
    ((runEvents (initState 0) [(Mode.scratch, BEvent.connectOk [("score", "0")], 1)]).get
        Mode.scratch).connection ≠ none :=
  ⟨rfl, isAvailable_implies_connection 0
    [(Mode.scratch, BEvent.connectOk [("score", "0")], 1)] Mode.scratch rfl⟩

/-- C6: a client message whose type is not ping and whose mode selector
is neither scratch nor turbowarp gets the invalid-backend error reply
and changes nothing: the returned state is the input state and no
broadcast is emitted. -/
theorem invalidBackend_noMutation (msg : ClientMsg) (out : SetOutcome) (ct : Bool)
    (now : Nat) (s : CMState)
    (hping : msg.type ≠ some "ping")
    (hs : msg.mode ≠ some "scratch") (ht : msg.mode ≠ some "turbowarp") :
    handleClientMessage msg out ct now s = (s, [responsesInvalidMode], []) := by
  have h1 : (msg.type == some "ping") = false := by simp [hping]
  have h2 : msg.mode.bind Mode.ofString = none := by
    cases hm : msg.mode with
    | none => rfl
    | some str =>
        have hs2 : str ≠ "scratch" := by
          rintro rfl
          exact hs hm
        have ht2 : str ≠ "turbowarp" := by
          rintro rfl
          exact ht hm
        simp [Mode.ofString, hs2, ht2]
  simp [handleClientMessage, h1, h2]

/-- C6 witness: a set request with the unknown selector X. -/
theorem invalidBackend_noMutation_witness :
    handleClientMessage ⟨some "set", some "X", some "n", some "v"⟩
        SetOutcome.ok false 7 (initState 0) =
      (initState 0, [responsesInvalidMode], []) :=
  invalidBackend_noMutation ⟨some "set", some "X", some "n", some "v"⟩
    SetOutcome.ok false 7 (initState 0) (by decide) (by decide) (by decide)

/-- C7: a transport read that splits into a well-formed set line, a
malformed line and another well-formed set line is handled by parsing
each line independently: the malformed line is skipped, both set frames
are applied to the turbowarp store in order, and both updates are
emitted together in a single batch_update broadcast. -/
theorem turbowarp_multiframe (parse : String → Option Frame) (raw : String)
    (l1 lb l2 : String) (f1 f2 : Frame) (s : CMState)
    (hsplit : splitLines raw = [l1, lb, l2])
    (h1 : parse l1 = some f1) (hb : parse lb = none) (h2 : parse l2 = some f2)
    (hm1 : f1.method = "set") (hm2 : f2.method = "set")
    (hname : f1.name ≠ f2.name) :
    handleTurboWarpMessage parse raw s =
      (s.set Mode.turbowarp
        { s.get Mode.turbowarp with
            vars := setVar (setVar (s.get Mode.turbowarp).vars f1.name f1.value)
              f2.name f2.value },
       [Msg.batchUpdate Mode.turbowarp [(f1.name, f1.value), (f2.name, f2.value)]]) := by
  simp [handleTurboWarpMessage, hsplit, twFold, h1, hb, h2, hm1, hm2, hname, setVar]

/-- C7 parse oracle for the witness: two known frames, everything else
malformed. -/
def C7parse (line : String) : Option Frame :=
  if line == "A" then some { method := "set", name := "x", value := "1" }
  else if line == "B" then some { method := "set", name := "y", value := "2" }
  else none

/-- C7 witness: the concrete read A, a junk line, B joined by newlines. -/
theorem turbowarp_multiframe_witness :
    splitLines "A\nzz\nB" = ["A", "zz", "B"] ∧
    handleTurboWarpMessage C7parse "A\nzz\nB" (initState 0) =
      ((initState 0).set Mode.turbowarp
        { (initState 0).get Mode.turbowarp with
            vars := setVar (setVar ((initState 0).get Mode.turbowarp).vars "x" "1")
              "y" "2" },
       [Msg.batchUpdate Mode.turbowarp [("x", "1"), ("y", "2")]]) :=
  ⟨by decide,
   turbowarp_multiframe C7parse "A\nzz\nB" "A" "zz" "B"
     { method := "set", name := "x", value := "1" }
     { method := "set", name := "y", value := "2" }
     (initState 0) (by decide) (by decide) (by decide) (by decide) rfl rfl (by decide)⟩

lemma countP_flushFilter (avail : Mode → Bool) (m : Mode)
    (q : List (Mode × List (String × String)))
    (hnd : (q.map Prod.fst).Nodup) :
    (q.filterMap (fun p =>
        if avail p.1 then some (Msg.batchUpdate p.1 p.2) else none)).countP
      (isBatchFor m) =
    if m ∈ q.map Prod.fst ∧ avail m = true then 1 else 0 := by
  induction q with
  | nil => simp
  | cons p q ih =>
      simp only [List.map_cons, List.nodup_cons] at hnd
      obtain ⟨hnotin, hnd2⟩ := hnd
      rcases eq_or_ne p.1 m with rfl | hne
      · cases hav : avail p.1 with
        | false =>
            simp [List.filterMap_cons, hav, ih hnd2, hnotin]
        | true =>
            simp [List.filterMap_cons, hav, List.countP_cons, isBatchFor,
              ih hnd2, hnotin]
      · have hmem : (m ∈ p.1 :: List.map Prod.fst q ∧ avail m = true) ↔
            (m ∈ List.map Prod.fst q ∧ avail m = true) := by
          simp [List.mem_cons, Ne.symm hne]
        cases hav : avail p.1 with
        | false =>
            rw [List.filterMap_cons, hav]
            simp only [Bool.false_eq_true, if_false, ih hnd2, List.map_cons]
            rw [if_congr hmem rfl rfl]
        | true =>
            rw [List.filterMap_cons, hav]
            simp only [if_true, List.countP_cons, ih hnd2, isBatchFor, List.map_cons]
            have hb : (p.1 == m) = false := by
              simp [hne]
            simp [hb]
            rw [if_congr hmem rfl rfl]

/-- C8: the flush emits exactly one batch_update for a backend exactly
when that backend has a pending entry and is still available at flush
time; the pending queue and the timer slot are cleared unconditionally
(pending updates for an unavailable backend are silently dropped); and
scheduleBroadcast refuses to enqueue for a backend already unavailable
at schedule time. -/
theorem flush_availability_filter (s : CMState) (m : Mode)
    (hnd : (s.messageQueue.map Prod.fst).Nodup) :
    (flushBroadcasts s).2.countP (isBatchFor m) =
      (if m ∈ s.messageQueue.map Prod.fst ∧ (s.get m).isAvailable = true
       then 1 else 0) ∧
    (flushBroadcasts s).1.messageQueue = [] ∧
    (flushBroadcasts s).1.batchTimeout = false ∧
    ((s.get m).isAvailable = false →
      ∀ name value, scheduleBroadcast m name value s = s) := by
  refine ⟨?_, rfl, rfl, fun hun name value => ?_⟩
  · exact countP_flushFilter (fun m2 => (s.get m2).isAvailable) m s.messageQueue hnd
  · simp [scheduleBroadcast, hun]

/-- C8 witness: a queue holding entries for both backends, of which only
scratch is available; the turbowarp entry is dropped and turbowarp
scheduling is refused. -/
theorem flush_availability_filter_witness :
    ((({ initState 0 with
          scratch := { initBackend 5000 with isAvailable := true },
          messageQueue := [(Mode.scratch, [("x", "1")]), (Mode.turbowarp, [("y", "2")])] } :
        CMState).messageQueue.map Prod.fst).Nodup) ∧
    (flushBroadcasts
        { initState 0 with
          scratch := { initBackend 5000 with isAvailable := true },
          messageQueue := [(Mode.scratch, [("x", "1")]), (Mode.turbowarp, [("y", "2")])] }).2.countP
      (isBatchFor Mode.turbowarp) =
      (if Mode.turbowarp ∈
          (({ initState 0 with
              scratch := { initBackend 5000 with isAvailable := true },
              messageQueue := [(Mode.scratch, [("x", "1")]), (Mode.turbowarp, [("y", "2")])] } :
            CMState)).messageQueue.map Prod.fst ∧
          ((({ initState 0 with
              scratch := { initBackend 5000 with isAvailable := true },
              messageQueue := [(Mode.scratch, [("x", "1")]), (Mode.turbowarp, [("y", "2")])] } :
            CMState)).get Mode.turbowarp).isAvailable = true
       then 1 else 0) :=
  ⟨by decide,
   (flush_availability_filter
     { initState 0 with
       scratch := { initBackend 5000 with isAvailable := true },
       messageQueue := [(Mode.scratch, [("x", "1")]), (Mode.turbowarp, [("y", "2")])] }
     Mode.turbowarp (by decide)).1⟩

/-- C10: the pong reply template is computed once at class-definition
time: every ping request, whatever the backend state and whatever the
time of receipt, is answered with the identical pong message whose
timestamp is the class-definition time kept in startTime, and the state
is untouched. -/
theorem pong_constant (msg : ClientMsg) (out : SetOutcome) (ct : Bool)
    (now now2 : Nat) (s : CMState) (h : msg.type = some "ping") :
    handleClientMessage msg out ct now s = (s, [Msg.pong s.startTime], []) ∧
    handleClientMessage msg out ct now s = handleClientMessage msg out ct now2 s := by
  have h1 : (msg.type == some "ping") = true := by simp [h]
  constructor <;> simp [handleClientMessage, h1, responsesPong]

/-- C10 witness: a concrete ping at two different receipt times. -/
theorem pong_constant_witness :
    handleClientMessage ⟨some "ping", none, none, none⟩ SetOutcome.ok false 1
        (initState 0) =
      (initState 0, [Msg.pong 0], []) ∧
    handleClientMessage ⟨some "ping", none, none, none⟩ SetOutcome.ok false 1
        (initState 0) =
      handleClientMessage ⟨some "ping", none, none, none⟩ SetOutcome.ok false 2
        (initState 0) :=
  pong_constant ⟨some "ping", none, none, none⟩ SetOutcome.ok false 1 2
    (initState 0) rfl

end CatMario
